import Mathlib

/-!
Shallow embedding of the LanDrop discovery and file-transfer services
(src/electron/main/services/discovery.ts and
src/electron/main/services/transfer.ts), together with theorems checking
the specification of those services against the code.

Maps of the JavaScript runtime are embedded as association lists with
update-or-append semantics; timestamps are naturals (milliseconds); byte
buffers are lists of naturals taken modulo 256 where the code reads them
as bytes.
-/

namespace LanDrop

/-- Transfer port constant (transfer.ts line 9, discovery.ts line 27). -/
def TRANSFER_PORT : Nat := 5201

/-- Chunk size used when streaming file content (transfer.ts line 10). -/
def CHUNK_SIZE : Nat := 64 * 1024

/-- Announcement broadcast interval in milliseconds (discovery.ts line 38). -/
def BROADCAST_INTERVAL : Nat := 3000

/-- Device staleness window in milliseconds (discovery.ts line 39). -/
def DEVICE_TIMEOUT : Nat := 10000

/-- Coarse platform classification of a device (discovery.ts line 15). -/
inductive DeviceType
  | desktop
  | mobile
  | tablet
deriving DecidableEq, Repr

/-- Device record of the registry (discovery.ts lines 9-17). -/
structure Device where
  id : String
  name : String
  ip : String
  port : Nat
  online : Bool
  type : DeviceType
  platform : Option String
deriving DecidableEq, Repr

/-- Manifest entry of a transfer (discovery.ts lines 19-25). -/
structure FileInfo where
  name : String
  size : Nat
  isDirectory : Bool
  path : String
  relativePath : Option String
deriving DecidableEq, Repr

/-- Wire announcement record (discovery.ts lines 29-36). -/
structure AnnounceMessage where
  deviceId : String
  deviceName : String
  platform : String
  port : Nat
  timestamp : Nat
deriving DecidableEq, Repr

/-- Update-or-append on an association list, embedding Map.set of the
JavaScript runtime: the entry with the given key is replaced in place, or a
fresh entry is appended in insertion order. -/
def mapSet {α : Type} (m : List (String × α)) (k : String) (v : α) : List (String × α) :=
  match m with
  | [] => [(k, v)]
  | (k₂, v₂) :: rest => if k₂ = k then (k, v) :: rest else (k₂, v₂) :: mapSet rest k v

/-- Lookup on an association list, embedding Map.get. -/
def mapGet {α : Type} (m : List (String × α)) (k : String) : Option α :=
  match m with
  | [] => none
  | (k₂, v₂) :: rest => if k₂ = k then some v₂ else mapGet rest k

/-- Key-membership test on an association list, embedding Map.has. -/
def mapHas {α : Type} (m : List (String × α)) (k : String) : Bool :=
  match m with
  | [] => false
  | (k₂, _) :: rest => k₂ == k || mapHas rest k

/-- State of the DiscoveryService registry (discovery.ts lines 43 and 51):
the devices map and the last-seen timestamp map, both keyed by device
identifier. -/
structure DiscoveryState where
  devices : List (String × Device)
  lastSeen : List (String × Nat)
deriving DecidableEq, Repr

/-- Registry state of a freshly constructed DiscoveryService: both maps
empty. -/
def emptyDiscovery : DiscoveryState := { devices := [], lastSeen := [] }

/-- Platform classification (discovery.ts getDeviceType, lines 237-242). -/
def getDeviceType (platform : String) : DeviceType :=
  if platform == "darwin" || platform == "win32" || platform == "linux" then .desktop
  else .mobile

/-- Ingestion of one announcement (discovery.ts handleAnnounce, lines
211-235): the stored device takes the transport-observed source ip passed by
the message handler (line 143), the constant TRANSFER_PORT as its port, and
online true; lastSeen is refreshed to the current time and the devices map
entry is overwritten. Returns the new state together with the device carried
by the device-discovered event when the identifier was not yet present. -/
def handleAnnounce (st : DiscoveryState) (data : AnnounceMessage) (ip : String) (now : Nat) :
    DiscoveryState × Option Device :=
  let isNew := !(mapHas st.devices data.deviceId)
  let device : Device :=
    { id := data.deviceId, name := data.deviceName, ip := ip, port := TRANSFER_PORT,
      online := true, type := getDeviceType data.platform, platform := some data.platform }
  let st₂ : DiscoveryState :=
    { devices := mapSet st.devices data.deviceId device,
      lastSeen := mapSet st.lastSeen data.deviceId now }
  (st₂, if isNew then some device else none)

/-- Staleness test used by the cleanup sweep (discovery.ts lines 192-193):
more than DEVICE_TIMEOUT milliseconds elapsed since the last announcement,
with a missing last-seen entry read as 0. -/
def isStale (lastSeen : List (String × Nat)) (now : Nat) (id : String) : Bool :=
  decide (DEVICE_TIMEOUT < now - ((mapGet lastSeen id).getD 0))

/-- One cleanup tick (discovery.ts startCleanup, lines 186-209): every device
whose last announcement is older than DEVICE_TIMEOUT is set offline and a
device-offline event is emitted for it; entries are never removed from either
map. Returns the new state and the list of emitted device-offline payloads. -/
def sweepTick (st : DiscoveryState) (now : Nat) : DiscoveryState × List Device :=
  let marked := st.devices.map (fun p =>
    if isStale st.lastSeen now p.1 then (p.1, { p.2 with online := false }) else p)
  let emitted := (st.devices.filter (fun p => isStale st.lastSeen now p.1)).map
    (fun p => { p.2 with online := false })
  ({ devices := marked, lastSeen := st.lastSeen }, emitted)

/-- One externally triggered mutation of the registry: an announcement
ingestion or a cleanup tick. -/
inductive DiscoveryEvent
  | announce (msg : AnnounceMessage) (srcIp : String) (now : Nat)
  | cleanup (now : Nat)
deriving Repr

/-- State transition of the registry on one event. -/
def applyEvent (st : DiscoveryState) (e : DiscoveryEvent) : DiscoveryState :=
  match e with
  | .announce msg ip now => (handleAnnounce st msg ip now).1
  | .cleanup now => (sweepTick st now).1

/-- Registry state reached from the empty registry by a sequence of
events. -/
def applyEvents (evs : List DiscoveryEvent) : DiscoveryState :=
  evs.foldl applyEvent emptyDiscovery

/-- Identifier column of the devices map. -/
def registryKeys (st : DiscoveryState) : List String := st.devices.map Prod.fst

/-- Big-endian 32-bit read of the first four bytes of a buffer, embedding
Buffer.readUInt32BE(0); bytes are taken modulo 256. -/
def readUInt32BE (bs : List Nat) : Nat :=
  match bs with
  | b₀ :: b₁ :: b₂ :: b₃ :: _ =>
      (b₀ % 256) * 16777216 + (b₁ % 256) * 65536 + (b₂ % 256) * 256 + (b₃ % 256)
  | _ => 0

/-- Receiver-side state of the data phase: index of the entry currently open
for writing, the bytes written to each manifest entry so far, and whether the
final receiveNextFile call has completed the transfer and ended the
socket. -/
structure RecvState where
  fileIndex : Nat
  written : List (List Nat)
  completed : Bool
deriving DecidableEq, Repr

/-- Receiver state when receiveNextFile is first entered at index 0
(transfer.ts lines 174 and 195-224): nothing written yet; an empty manifest
completes immediately (lines 200-211). -/
def initRecvState (files : List FileInfo) : RecvState :=
  { fileIndex := 0, written := List.replicate files.length [], completed := files.isEmpty }

/-- One socket data event inside the receive loop (transfer.ts receiveData,
lines 226-274). A four-byte event holding the value zero closes the current
file and moves to the next entry via receiveNextFile (lines 229-234), which
completes the task once the index passes the manifest length; an event
shorter than four bytes merely re-arms the loop, discarding its bytes (lines
237-240); any other event is treated as one frame: its first four bytes are
read as the chunk length and data.slice(4, 4 + chunkSize) is appended to the
currently open file (lines 242-247). After completion no handler is armed, so
later events are ignored. -/
def onDataEvent (files : List FileInfo) (st : RecvState) (data : List Nat) : RecvState :=
  if st.completed then st
  else if data.length == 4 && readUInt32BE data == 0 then
    { st with fileIndex := st.fileIndex + 1,
              completed := decide (files.length ≤ st.fileIndex + 1) }
  else if data.length < 4 then st
  else
    let chunkSize := readUInt32BE data
    let chunkData := (data.drop 4).take chunkSize
    { st with written :=
        st.written.set st.fileIndex ((st.written.getD st.fileIndex []) ++ chunkData) }

/-- Fold of the receive loop over a sequence of socket data events, starting
from the state in which the first manifest entry has just been opened. -/
def runRecv (files : List FileInfo) (events : List (List Nat)) : RecvState :=
  events.foldl (onDataEvent files) (initRecvState files)

/-- Splitting of a character list on the slash separator. -/
def splitOnSlash (cs : List Char) : List (List Char) :=
  match cs with
  | [] => [[]]
  | c :: rest =>
      let r := splitOnSlash rest
      if c = '/' then [] :: r
      else
        match r with
        | [] => [[c]]
        | s :: ss => (c :: s) :: ss

/-- Segments of a slash-separated path string. -/
def splitPath (s : String) : List String :=
  (splitOnSlash s.data).map (fun cs => String.mk cs)

/-- Left-to-right normalization of path segments with an accumulator stack,
embedding the normalization performed by path.join on an absolute base:
empty and dot segments vanish, and a parent-directory segment pops the
previously accepted segment (popping at the root is a no-op). -/
def normSegs (stack : List String) (segs : List String) : List String :=
  match segs with
  | [] => stack.reverse
  | seg :: rest =>
      if seg == "" || seg == "." then normSegs stack rest
      else if seg == ".." then normSegs stack.tail rest
      else normSegs (seg :: stack) rest

/-- Destination path opened by receiveNextFile (transfer.ts line 214):
path.join(this.downloadDir, file.name), with the download directory given as
its absolute segments. The code applies no sanitization before opening the
write handle at this path (line 223). -/
def receivePath (downloadDir : List String) (f : FileInfo) : List String :=
  normSegs [] (downloadDir ++ splitPath f.name)

/-- Status values of a TransferTask (transfer.ts line 19). -/
inductive TaskStatus
  | pending
  | transferring
  | completed
  | failed
deriving DecidableEq, Repr

/-- Transfer response record of the control phase (transfer.ts lines
156-160 and 320-329). -/
structure TransferResponse where
  accepted : Bool
  message : String
deriving DecidableEq, Repr

/-- Observable state of the initiator session inside sendFiles: the task
status, how many chunk frames were handed to the socket, whether
sendNextFile was ever invoked, the message the promise was rejected with when
it was, and whether the socket was ended locally. -/
structure InitiatorState where
  status : TaskStatus
  chunkFramesSent : Nat
  sendNextFileInvoked : Bool
  rejectedWith : Option String
  socketEnded : Bool
deriving DecidableEq, Repr

/-- Initiator session state right after the transfer request header is
written (transfer.ts sendFiles, lines 288-316): status pending, nothing
streamed, promise unsettled. -/
def initInitiator : InitiatorState :=
  { status := .pending, chunkFramesSent := 0, sendNextFileInvoked := false,
    rejectedWith := none, socketEnded := false }

/-- Handling of the transfer response on the initiator (transfer.ts lines
318-333): on accept the status becomes transferring and sendNextFile starts
streaming; on reject the promise is rejected with the response message and
the socket is ended, with no other field touched. -/
def handleTransferResponse (st : InitiatorState) (resp : TransferResponse) : InitiatorState :=
  if resp.accepted then
    { st with status := .transferring, sendNextFileInvoked := true }
  else
    { st with rejectedWith := some resp.message, socketEnded := true }

/-- Terminal statuses of the status type the code declares (transfer.ts line
19): completed makes the close handler resolve the promise (lines 343-347)
and failed is set by the error handler (line 336); pending and transferring
are non-terminal. -/
def isTerminal (s : TaskStatus) : Bool :=
  match s with
  | .completed => true
  | .failed => true
  | _ => false

/-- Total size computed by sendFiles (transfer.ts line 286):
files.reduce of sum plus f.size starting from 0, summing over every entry of
the list. -/
def sendFilesTotalSize (files : List FileInfo) : Nat :=
  files.foldl (fun sum f => sum + f.size) 0

/-- Total size as worded by the specification: the sum of the declared sizes
of the non-directory entries of the list. Stated separately so that the code
path above can be compared against it. -/
def totalSizeNonDirectory (files : List FileInfo) : Nat :=
  (files.filter (fun f => !f.isDirectory)).foldl (fun sum f => sum + f.size) 0

/-- Download-directory state of the TransferService (transfer.ts line
46). -/
structure TransferServiceState where
  downloadDir : String
deriving DecidableEq, Repr

/-- setDownloadDir (transfer.ts lines 453-458): the destination root is
updated only when fs.existsSync(dir) holds; otherwise the call does nothing
and raises no error. The filesystem existence check is passed in as an
oracle. -/
def setDownloadDir (fsExistsSync : String → Bool) (st : TransferServiceState)
    (dir : String) : TransferServiceState :=
  if fsExistsSync dir then { st with downloadDir := dir } else st

/-- A mapSet write is visible to a mapGet at the same key. -/
theorem mapGet_mapSet_self {α : Type} (m : List (String × α)) (k : String) (v : α) :
    mapGet (mapSet m k v) k = some v := by
  induction m with
  | nil => simp [mapSet, mapGet]
  | cons p rest ih =>
      obtain ⟨k₂, v₂⟩ := p
      by_cases h : k₂ = k
      · simp [mapSet, mapGet, h]
      · simp [mapSet, mapGet, h, ih]

/-- Every key of a map after a mapSet is either an old key or the written
key. -/
theorem mem_keys_mapSet {α : Type} (m : List (String × α)) (k x : String) (v : α)
    (hx : x ∈ (mapSet m k v).map Prod.fst) : x ∈ m.map Prod.fst ∨ x = k := by
  induction m with
  | nil =>
      simp only [mapSet, List.map_cons, List.map_nil, List.mem_singleton] at hx
      exact Or.inr hx
  | cons p rest ih =>
      obtain ⟨k₂, v₂⟩ := p
      by_cases h : k₂ = k
      · simp only [mapSet, if_pos h, List.map_cons, List.mem_cons] at hx ⊢
        tauto
      · simp only [mapSet, if_neg h, List.map_cons, List.mem_cons] at hx ⊢
        rcases hx with hx | hx
        · tauto
        · rcases ih hx with h₁ | h₁ <;> tauto

/-- mapSet preserves distinctness of the keys. -/
theorem nodup_keys_mapSet {α : Type} (m : List (String × α)) (k : String) (v : α)
    (h : (m.map Prod.fst).Nodup) : ((mapSet m k v).map Prod.fst).Nodup := by
  induction m with
  | nil => simp [mapSet]
  | cons p rest ih =>
      obtain ⟨k₂, v₂⟩ := p
      simp only [List.map_cons, List.nodup_cons] at h
      by_cases hk : k₂ = k
      · subst hk
        simpa [mapSet] using h
      · simp only [mapSet, if_neg hk, List.map_cons, List.nodup_cons]
        refine ⟨fun hmem => ?_, ih h.2⟩
        rcases mem_keys_mapSet rest k k₂ v hmem with h₁ | h₁
        · exact h.1 h₁
        · exact hk h₁

/-- The sweep rewrites device records in place and keeps the key column. -/
theorem keys_map_mark (lastSeen : List (String × Nat)) (now : Nat)
    (l : List (String × Device)) :
    (l.map (fun p =>
      if isStale lastSeen now p.1 then (p.1, { p.2 with online := false }) else p)).map Prod.fst
      = l.map Prod.fst := by
  induction l with
  | nil => rfl
  | cons p rest ih =>
      by_cases h : isStale lastSeen now p.1 <;> simp [h, ih]

/-- A sweep tick does not change the identifier column of the registry. -/
theorem sweepTick_keys (st : DiscoveryState) (now : Nat) :
    registryKeys (sweepTick st now).1 = registryKeys st :=
  keys_map_mark st.lastSeen now st.devices

/-- One registry event preserves distinctness of the identifiers. -/
theorem applyEvent_nodup (st : DiscoveryState) (e : DiscoveryEvent)
    (h : (registryKeys st).Nodup) : (registryKeys (applyEvent st e)).Nodup := by
  cases e with
  | announce msg ip now =>
      simpa [applyEvent, handleAnnounce, registryKeys] using
        nodup_keys_mapSet st.devices msg.deviceId _ h
  | cleanup now =>
      simpa [applyEvent, sweepTick_keys] using h

/-- Distinct identifiers are an inductive invariant of the event fold. -/
theorem foldl_applyEvent_nodup (evs : List DiscoveryEvent) (st : DiscoveryState)
    (h : (registryKeys st).Nodup) : (registryKeys (evs.foldl applyEvent st)).Nodup := by
  induction evs generalizing st with
  | nil => simpa using h
  | cons e rest ih => exact ih _ (applyEvent_nodup st e h)

/-- Accumulator form of the total-size fold of sendFiles. -/
theorem foldl_add_size (files : List FileInfo) (acc : Nat) :
    files.foldl (fun sum f => sum + f.size) acc = acc + (files.map FileInfo.size).sum := by
  induction files generalizing acc with
  | nil => simp
  | cons f rest ih => simp [ih, Nat.add_assoc]

/-- The size sum over a manifest splits into the sums over its non-directory
and directory entries. -/
theorem sum_sizes_split (files : List FileInfo) :
    (files.map FileInfo.size).sum
      = ((files.filter (fun f => !f.isDirectory)).map FileInfo.size).sum
        + ((files.filter (fun f => f.isDirectory)).map FileInfo.size).sum := by
  induction files with
  | nil => rfl
  | cons f rest ih =>
      by_cases hd : f.isDirectory = true <;>
        simp [List.filter_cons, hd, ih] <;> omega

/-- C1: the receiver is claimed to track bytes-remaining against each entry
declared size, switching to the next file after exactly that many bytes with
no per-file sentinel. Evaluating the embedded receive loop on a two-entry
manifest of one byte each, streamed as the sender does (two one-byte frames
and a single trailing zero sentinel), shows the code instead appends the
second entry bytes to the first file, only advances on the one trailing
sentinel, and never completes: written [[170, 187], []] instead of the
claimed [[170], [187]]. -/
theorem c1_no_bytes_remaining_tracking :
    runRecv
        [{ name := "a.bin", size := 1, isDirectory := false, path := "", relativePath := none },
         { name := "b.bin", size := 1, isDirectory := false, path := "", relativePath := none }]
        [[0, 0, 0, 1, 170], [0, 0, 0, 1, 187], [0, 0, 0, 0]] =
      { fileIndex := 1, written := [[170, 187], []], completed := false } := by
  decide

/-- C2: a manifest entry whose name contains a parent-directory segment is
claimed to be rejected before any handle is opened. The embedded destination
path computation of receiveNextFile shows path.join resolves the name
../secret to a location outside the LanDrop download root, and the write
handle is opened there with no rejection. -/
theorem c2_traversal_not_rejected :
    receivePath [("home" : String), "user", "Downloads", "LanDrop"]
        { name := "../secret", size := 10, isDirectory := false, path := "", relativePath := none }
      = [("home" : String), "user", "Downloads", "secret"] ∧
    (([("home" : String), "user", "Downloads", "LanDrop"]).isPrefixOf
        (receivePath [("home" : String), "user", "Downloads", "LanDrop"]
          { name := "../secret", size := 10, isDirectory := false, path := "", relativePath := none }))
      = false := by
  decide

/-- C3: the device-offline event is claimed to fire exactly once per
staleness eviction. Evaluating the embedded registry on one announcement at
time 0 followed by cleanup ticks at 11000 and 12000 shows the event payload
is emitted on both ticks, because the sweep only flags the entry offline and
never removes it. -/
theorem c3_offline_reemitted_every_tick :
    ((sweepTick (handleAnnounce emptyDiscovery
        { deviceId := "dev-1", deviceName := "Alice", platform := "linux",
          port := 5201, timestamp := 0 } ("192.168.1.5") 0).1 11000).2.map Device.id
      = [("dev-1" : String)]) ∧
    ((sweepTick (sweepTick (handleAnnounce emptyDiscovery
        { deviceId := "dev-1", deviceName := "Alice", platform := "linux",
          port := 5201, timestamp := 0 } ("192.168.1.5") 0).1 11000).1 12000).2.map Device.id
      = [("dev-1" : String)]) := by
  decide

/-- C4 counterexample: after a rejecting transfer response the initiator
session is claimed to end in a Rejected terminal state, but the embedded
response handler leaves the task status at pending, which is not a terminal
status of the status type the code declares (and that type has no Rejected
value at all). -/
theorem c4_no_rejected_terminal_state :
    ((handleTransferResponse initInitiator { accepted := false, message := "no" }).status
      = TaskStatus.pending) ∧
    isTerminal (handleTransferResponse initInitiator
      { accepted := false, message := "no" }).status = false := by
  decide

/-- C4 (amended): a rejecting transfer response causes the initiator to
reject its promise with the response message and end the socket, with
sendNextFile never invoked, zero chunk frames handed to the socket and hence
zero bytes written at the destination; the task status however remains
pending, since the status type has no Rejected value. -/
theorem c4_reject_sends_nothing (m : String) :
    handleTransferResponse initInitiator { accepted := false, message := m } =
      { status := .pending, chunkFramesSent := 0, sendNextFileInvoked := false,
        rejectedWith := some m, socketEnded := true } := rfl

/-- C4 witness: the amended statement applied at a concrete rejection
message. -/
theorem c4_reject_sends_nothing_witness :
    handleTransferResponse initInitiator { accepted := false, message := "busy" } =
      { status := .pending, chunkFramesSent := 0, sendNextFileInvoked := false,
        rejectedWith := some ("busy"), socketEnded := true } :=
  c4_reject_sends_nothing ("busy")

/-- C5 counterexample: the stored transfer port is claimed to be the port
declared in the announcement, but ingesting an announcement that declares
port 9999 stores the constant TRANSFER_PORT instead. -/
theorem c5_declared_port_ignored :
    (mapGet ((handleAnnounce emptyDiscovery
        { deviceId := "dev-1", deviceName := "Alice", platform := "linux",
          port := 9999, timestamp := 0 } ("10.0.0.7") 0).1.devices) ("dev-1")).map Device.port
      = some TRANSFER_PORT ∧ TRANSFER_PORT ≠ 9999 := by
  decide

/-- C5 (amended): for every announcement ingested into the registry, the
stored device record takes the transport-observed source ip of the packet,
never any address carried inside the payload, and each later announcement
from the same identifier overwrites the record and its last-seen time with
the most recent values; the stored transfer port however is always the
constant TRANSFER_PORT, the declared port of the announcement being
ignored. -/
theorem c5_source_ip_and_constant_port (st : DiscoveryState) (msg : AnnounceMessage)
    (ip : String) (now : Nat) :
    mapGet ((handleAnnounce st msg ip now).1.devices) msg.deviceId =
      some { id := msg.deviceId, name := msg.deviceName, ip := ip, port := TRANSFER_PORT,
             online := true, type := getDeviceType msg.platform,
             platform := some msg.platform } ∧
    mapGet ((handleAnnounce st msg ip now).1.lastSeen) msg.deviceId = some now := by
  constructor <;> simp [handleAnnounce, mapGet_mapSet_self]

/-- C6: after any sequence of announcement ingestions and cleanup sweeps
applied to the empty registry, no two entries of the devices map share the
same device identifier; ingesting an announcement for an identifier already
present rewrites that single entry in place. -/
theorem c6_no_duplicate_identifiers (evs : List DiscoveryEvent) :
    (registryKeys (applyEvents evs)).Nodup :=
  foldl_applyEvent_nodup evs emptyDiscovery (by simp [registryKeys, emptyDiscovery])

/-- C7: with the announcement interval constant at 3000 and the staleness
window at 10000 milliseconds, a device announced at time t and silent since
is emitted offline by a sweep at t + 11000 and flagged offline in the
registry, while a sweep at t + 8000 emits nothing and leaves it online. -/
theorem c7_staleness_boundaries (msg : AnnounceMessage) (ip : String) (t : Nat) :
    BROADCAST_INTERVAL = 3000 ∧ DEVICE_TIMEOUT = 10000 ∧
    (sweepTick (handleAnnounce emptyDiscovery msg ip t).1 (t + 11000)).2.map Device.online
      = [false] ∧
    mapGet (sweepTick (handleAnnounce emptyDiscovery msg ip t).1 (t + 11000)).1.devices
        msg.deviceId
      = some { id := msg.deviceId, name := msg.deviceName, ip := ip, port := TRANSFER_PORT,
               online := false, type := getDeviceType msg.platform,
               platform := some msg.platform } ∧
    (sweepTick (handleAnnounce emptyDiscovery msg ip t).1 (t + 8000)).2 = [] ∧
    mapGet (sweepTick (handleAnnounce emptyDiscovery msg ip t).1 (t + 8000)).1.devices
        msg.deviceId
      = some { id := msg.deviceId, name := msg.deviceName, ip := ip, port := TRANSFER_PORT,
               online := true, type := getDeviceType msg.platform,
               platform := some msg.platform } := by
  have h₁ : (handleAnnounce emptyDiscovery msg ip t).1 =
      { devices := [(msg.deviceId,
          { id := msg.deviceId, name := msg.deviceName, ip := ip, port := TRANSFER_PORT,
            online := true, type := getDeviceType msg.platform,
            platform := some msg.platform })],
        lastSeen := [(msg.deviceId, t)] } := rfl
  have hget : mapGet [(msg.deviceId, t)] msg.deviceId = some t := by simp [mapGet]
  have e₁ : t + 11000 - t = 11000 := by omega
  have e₂ : t + 8000 - t = 8000 := by omega
  have hs₁ : isStale [(msg.deviceId, t)] (t + 11000) msg.deviceId = true := by
    simp [isStale, hget, DEVICE_TIMEOUT, e₁]
  have hs₂ : isStale [(msg.deviceId, t)] (t + 8000) msg.deviceId = false := by
    simp [isStale, hget, DEVICE_TIMEOUT, e₂]
  refine ⟨rfl, rfl, ?_, ?_, ?_, ?_⟩ <;> rw [h₁] <;>
    simp only [sweepTick, List.map_cons, List.map_nil, List.filter_cons, List.filter_nil,
      hs₁, hs₂, if_true, if_false] <;>
    simp [mapGet]

/-- C8: the receiver is claimed to reconstruct the same frames for every
segmentation of the data-phase byte stream. Evaluating the embedded receive
loop on one frame of two bytes plus the zero sentinel, delivered once aligned
with the sender writes and once split after the first content byte, shows the
two runs write different file bytes: the split run loses the second byte,
because the loop treats every data event as a whole frame and discards events
shorter than four bytes. -/
theorem c8_segmentation_changes_bytes :
    (([[0, 0, 0, 2, 170, 187], [0, 0, 0, 0]] : List (List Nat)).flatten
      = ([[0, 0, 0, 2, 170], [187], [0, 0, 0, 0]] : List (List Nat)).flatten) ∧
    (runRecv [{ name := "a.bin", size := 2, isDirectory := false, path := "", relativePath := none }]
        [[0, 0, 0, 2, 170, 187], [0, 0, 0, 0]]).written = [[170, 187]] ∧
    (runRecv [{ name := "a.bin", size := 2, isDirectory := false, path := "", relativePath := none }]
        [[0, 0, 0, 2, 170], [187], [0, 0, 0, 0]]).written = [[170]] := by
  decide

/-- C9 counterexample: the transfer request totalSize is claimed to equal
the sum of the declared sizes of the non-directory entries, but sendFiles
sums every entry: on a manifest holding a directory entry of declared size 5
and a file of size 3 the code computes 8 while the claimed sum is 3. -/
theorem c9_directory_sizes_counted :
    sendFilesTotalSize
        [{ name := "d", size := 5, isDirectory := true, path := "", relativePath := none },
         { name := "f", size := 3, isDirectory := false, path := "", relativePath := none }] = 8 ∧
    totalSizeNonDirectory
        [{ name := "d", size := 5, isDirectory := true, path := "", relativePath := none },
         { name := "f", size := 3, isDirectory := false, path := "", relativePath := none }] = 3 ∧
    (8 : Nat) ≠ 3 := by
  decide

/-- C9 (amended): for every list of file entries, the transfer request
totalSize equals the sum of the declared sizes over all entries of the list,
directories included, unconditionally; and it coincides with the sum over
the non-directory entries exactly when every directory entry declares size
zero, as the folder picker produces. -/
theorem c9_total_size_sums_all_entries (files : List FileInfo) :
    sendFilesTotalSize files = (files.map FileInfo.size).sum ∧
    (sendFilesTotalSize files = totalSizeNonDirectory files ↔
      ∀ f ∈ files, f.isDirectory = true → f.size = 0) := by
  have h₀ : sendFilesTotalSize files = (files.map FileInfo.size).sum := by
    simpa using foldl_add_size files 0
  have h₁ : totalSizeNonDirectory files
      = ((files.filter (fun f => !f.isDirectory)).map FileInfo.size).sum := by
    simpa using foldl_add_size (files.filter (fun f => !f.isDirectory)) 0
  refine ⟨h₀, ?_⟩
  rw [h₀, h₁, sum_sizes_split files]
  constructor
  · intro h f hf hd
    have hz : ((files.filter (fun f => f.isDirectory)).map FileInfo.size).sum = 0 := by
      omega
    exact List.sum_eq_zero_iff.mp hz f.size
      (List.mem_map_of_mem FileInfo.size (List.mem_filter.mpr ⟨hf, hd⟩))
  · intro h
    have hz : ((files.filter (fun f => f.isDirectory)).map FileInfo.size).sum = 0 := by
      refine List.sum_eq_zero_iff.mpr ?_
      intro x hx
      rcases List.mem_map.mp hx with ⟨g, hg, rfl⟩
      rcases List.mem_filter.mp hg with ⟨hgf, hgd⟩
      exact h g hgf hgd
    omega

/-- C10: setDownloadDir changes the destination root to the given directory
exactly when the filesystem existence check accepts it at call time; when the
check fails, the state is left unchanged and no error is raised (the embedded
operation is total). -/
theorem c10_setDownloadDir_guarded (fsExistsSync : String → Bool)
    (st : TransferServiceState) (dir : String) :
    (fsExistsSync dir = true →
      setDownloadDir fsExistsSync st dir = { downloadDir := dir }) ∧
    (fsExistsSync dir = false → setDownloadDir fsExistsSync st dir = st) := by
  constructor <;> intro h <;> simp [setDownloadDir, h]

/-- C10 witness: both guard outcomes exercised at concrete directories. -/
theorem c10_setDownloadDir_guarded_witness :
    setDownloadDir (fun _ => true) { downloadDir := "/a" } ("/b")
      = { downloadDir := "/b" } ∧
    setDownloadDir (fun _ => false) { downloadDir := "/a" } ("/b")
      = { downloadDir := "/a" } :=
  ⟨(c10_setDownloadDir_guarded (fun _ => true) { downloadDir := "/a" } ("/b")).1 rfl,
   (c10_setDownloadDir_guarded (fun _ => false) { downloadDir := "/a" } ("/b")).2 rfl⟩

end LanDrop
